import Mathlib

/-!
Shallow embedding of the pibooth photo-booth application core
(`pibooth/booth.py`, `pibooth/plugins/view_plugin.py`,
`pibooth/plugins/flash_plugin.py`) and proofs about the event
classifiers, the state set, the view plugin's validate hooks and the
main loop.

Machine integers do not overflow in the modelled code, so pixel sizes
are `Nat` and pointer coordinates are `Rat` (pygame accepts fractional
point coordinates in `Rect.collidepoint`; all rectangle bounds produced
by the code are integers, so comparing in `Rat` agrees with pygame's
integer-truncating comparison for non-negative coordinates).
-/

namespace Pibooth

/-! ### pygame constants

Only distinctness of the numeric values matters; the values follow the
pygame 2 constants used by `booth.py`. -/

def QUIT : Nat := 256
def KEYDOWN : Nat := 768
def MOUSEBUTTONUP : Nat := 1026
def FINGERDOWN : Nat := 1792
def FINGERMOTION : Nat := 1794
def FINGERUP : Nat := 1793
def VIDEORESIZE : Nat := 32769
def USEREVENT : Nat := 32850
/-- Constant `BUTTONDOWN = pygame.USEREVENT + 1` (booth.py line 40). -/
def BUTTONDOWN : Nat := USEREVENT + 1
/-- Modelled from the spec: `PRINTER_TASKS_UPDATED` is a dedicated user
event declared by `pibooth.printer` (not among the sources); only its
distinctness from the other event types is used. -/
def PRINTER_TASKS_UPDATED : Nat := USEREVENT + 2

def K_ESCAPE : Nat := 27
def K_q : Nat := 113
def K_f : Nat := 102
def K_p : Nat := 112
def K_RIGHT : Nat := 1073741903
def K_LEFT : Nat := 1073741904
def K_DOWN : Nat := 1073741905
def K_UP : Nat := 1073741906

/-- A pygame event as used by `booth.py`: a type tag plus the fields the
classifiers read or write.  Absent attributes are `none` / defaults
(`key` is only present on keyboard events until `find_choice_event`
assigns it, `button` on mouse events, `left`/`center`/`right` on
`BUTTONDOWN` events where they are the ints 0/1 tested for truthiness,
`pos` on mouse events, `tx`/`ty` are the normalized `event.x`/`event.y`
of touch events, `size` on `VIDEORESIZE` events). -/
structure Event where
  type : Nat
  key : Option Nat := none
  button : Option Nat := none
  left : Bool := false
  center : Bool := false
  right : Bool := false
  pos : Rat × Rat := (0, 0)
  tx : Rat := 0
  ty : Rat := 0
  size : Nat × Nat := (0, 0)
  deriving Repr, DecidableEq

/-- The window as seen by the classifiers: `get_rect()` gives a
`width × height` rectangle at the origin and `display_size` is the same
size (modelling `PiWindow`, whose module is outside the sources). -/
structure PiWindow where
  width : Nat
  height : Nat
  deriving Repr, DecidableEq

/-- A pygame `Rect`: position and size, integer-valued. -/
structure Rect where
  x : Int
  y : Int
  w : Int
  h : Int
  deriving Repr, DecidableEq

/-- Predicate `pygame.Rect.collidepoint`: a point on the right or bottom edge is
not inside. -/
def Rect.collidepoint (r : Rect) (p : Rat × Rat) : Prop :=
  (r.x : Rat) ≤ p.1 ∧ p.1 < ((r.x + r.w : Int) : Rat) ∧
    (r.y : Rat) ≤ p.2 ∧ p.2 < ((r.y + r.h : Int) : Rat)

instance (r : Rect) (p : Rat × Rat) : Decidable (r.collidepoint p) := by
  unfold Rect.collidepoint; infer_instance

/-- Modelled from the spec: `get_event_pos` (`pibooth.utils`, not among
the sources) maps a touch event's normalized coordinates onto the
display surface and returns a pointer event's position unchanged. -/
def getEventPos (displaySize : Nat × Nat) (e : Event) : Rat × Rat :=
  if e.type = FINGERDOWN ∨ e.type = FINGERMOTION ∨ e.type = FINGERUP then
    (e.tx * displaySize.1, e.ty * displaySize.2)
  else
    e.pos

/-- Test `event.button in (1, 2, 3)`. -/
def mouseButtonReleased (e : Event) : Prop :=
  e.button = some 1 ∨ e.button = some 2 ∨ e.button = some 3

instance (e : Event) : Decidable (mouseButtonReleased e) := by
  unfold mouseButtonReleased; infer_instance

/-- Test `(event.type == MOUSEBUTTONUP and event.button in (1, 2, 3)) or
event.type == FINGERUP`. -/
def pointerReleased (e : Event) : Prop :=
  (e.type = MOUSEBUTTONUP ∧ mouseButtonReleased e) ∨ e.type = FINGERUP

instance (e : Event) : Decidable (pointerReleased e) := by
  unfold pointerReleased; infer_instance

/-! ### Event classifiers (`PiApplication.find_*_event`)

Python iterates over the shared event objects and `find_choice_event`
mutates the matching event in place, so every classifier is embedded in
a uniform state-passing shape: it returns the first match (or `none`)
together with the batch as it stands after the call. -/

/-- Embeds `find_quit_event`: first `QUIT` event or `KEYDOWN` with key
`K_ESCAPE` or `K_q`. -/
def findQuitEvent : List Event → Option Event × List Event
  | [] => (none, [])
  | e :: rest =>
    if e.type = QUIT then (some e, e :: rest)
    else if e.type = KEYDOWN ∧ (e.key = some K_ESCAPE ∨ e.key = some K_q) then
      (some e, e :: rest)
    else
      let r := findQuitEvent rest
      (r.1, e :: r.2)

/-- Embeds `find_settings_event`: the whole body is commented out
("DISABLE SETTINGS MENU"); the function returns `None` for every
batch and touches nothing. -/
def findSettingsEvent (events : List Event) : Option Event × List Event :=
  (none, events)

/-- Embeds `find_fullscreen_event`: first `KEYDOWN` with key `K_f`. -/
def findFullscreenEvent : List Event → Option Event × List Event
  | [] => (none, [])
  | e :: rest =>
    if e.type = KEYDOWN ∧ e.key = some K_f then (some e, e :: rest)
    else
      let r := findFullscreenEvent rest
      (r.1, e :: r.2)

/-- Embeds `find_unpause_printer_event`: first `KEYDOWN` with key `K_p`. -/
def findUnpausePrinterEvent : List Event → Option Event × List Event
  | [] => (none, [])
  | e :: rest =>
    if e.type = KEYDOWN ∧ e.key = some K_p then (some e, e :: rest)
    else
      let r := findUnpausePrinterEvent rest
      (r.1, e :: r.2)

/-- Embeds `find_resize_event`: first `VIDEORESIZE` event. -/
def findResizeEvent : List Event → Option Event × List Event
  | [] => (none, [])
  | e :: rest =>
    if e.type = VIDEORESIZE then (some e, e :: rest)
    else
      let r := findResizeEvent rest
      (r.1, e :: r.2)

/-- Embeds `find_left_event`: left arrow key, pointer release in
`Rect(0, 0, width // 3, height)`, or `BUTTONDOWN` with `left`. -/
def findLeftEvent (win : PiWindow) : List Event → Option Event × List Event
  | [] => (none, [])
  | e :: rest =>
    if e.type = KEYDOWN ∧ e.key = some K_LEFT then (some e, e :: rest)
    else if pointerReleased e ∧
        (Rect.mk 0 0 ((win.width / 3 : Nat) : Int) (win.height : Int)).collidepoint
          (getEventPos (win.width, win.height) e) then
      (some e, e :: rest)
    else if e.type = BUTTONDOWN ∧ e.left = true then (some e, e :: rest)
    else
      let r := findLeftEvent win rest
      (r.1, e :: r.2)

/-- Embeds `find_right_event`: right arrow key, pointer release in
`Rect((width // 3) * 2, 0, width // 3, height)`, or `BUTTONDOWN` with
`right`. -/
def findRightEvent (win : PiWindow) : List Event → Option Event × List Event
  | [] => (none, [])
  | e :: rest =>
    if e.type = KEYDOWN ∧ e.key = some K_RIGHT then (some e, e :: rest)
    else if pointerReleased e ∧
        (Rect.mk (((win.width / 3 : Nat) : Int) * 2) 0 ((win.width / 3 : Nat) : Int)
          (win.height : Int)).collidepoint (getEventPos (win.width, win.height) e) then
      (some e, e :: rest)
    else if e.type = BUTTONDOWN ∧ e.right = true then (some e, e :: rest)
    else
      let r := findRightEvent win rest
      (r.1, e :: r.2)

/-- Embeds `find_center_event`: up or down arrow key, pointer release in
`Rect(width // 3, 0, width // 3, height)`, or `BUTTONDOWN` with
`center`. -/
def findCenterEvent (win : PiWindow) : List Event → Option Event × List Event
  | [] => (none, [])
  | e :: rest =>
    if e.type = KEYDOWN ∧ (e.key = some K_UP ∨ e.key = some K_DOWN) then (some e, e :: rest)
    else if pointerReleased e ∧
        (Rect.mk ((win.width / 3 : Nat) : Int) 0 ((win.width / 3 : Nat) : Int)
          (win.height : Int)).collidepoint (getEventPos (win.width, win.height) e) then
      (some e, e :: rest)
    else if e.type = BUTTONDOWN ∧ e.center = true then (some e, e :: rest)
    else
      let r := findCenterEvent win rest
      (r.1, e :: r.2)

/-- Embeds `find_print_status_event`: first `PRINTER_TASKS_UPDATED` event. -/
def findPrintStatusEvent : List Event → Option Event × List Event
  | [] => (none, [])
  | e :: rest =>
    if e.type = PRINTER_TASKS_UPDATED then (some e, e :: rest)
    else
      let r := findPrintStatusEvent rest
      (r.1, e :: r.2)

/-- Embeds `find_choice_event`: arrow keys are returned as is; a pointer
release or a `BUTTONDOWN` event gets its `key` attribute assigned
(`event.key = K_LEFT / K_DOWN / K_RIGHT`, an in-place mutation of the
event object in the batch) before being returned. -/
def findChoiceEvent (win : PiWindow) : List Event → Option Event × List Event
  | [] => (none, [])
  | e :: rest =>
    if e.type = KEYDOWN ∧ e.key = some K_LEFT then (some e, e :: rest)
    else if e.type = KEYDOWN ∧ e.key = some K_RIGHT then (some e, e :: rest)
    else if e.type = KEYDOWN ∧ (e.key = some K_UP ∨ e.key = some K_DOWN) then
      (some e, e :: rest)
    else if pointerReleased e then
      let pos := getEventPos (win.width, win.height) e
      let e' :=
        if (Rect.mk 0 0 ((win.width / 3 : Nat) : Int) (win.height : Int)).collidepoint pos then
          { e with key := some K_LEFT }
        else if (Rect.mk ((win.width / 3 : Nat) : Int) 0 ((win.width / 3 : Nat) : Int)
            (win.height : Int)).collidepoint pos then
          { e with key := some K_DOWN }
        else
          { e with key := some K_RIGHT }
      (some e', e' :: rest)
    else if e.type = BUTTONDOWN then
      let e' :=
        if e.left = true then { e with key := some K_LEFT }
        else if e.center = true then { e with key := some K_DOWN }
        else { e with key := some K_RIGHT }
      (some e', e' :: rest)
    else
      let r := findChoiceEvent win rest
      (r.1, e :: r.2)

/-- A mouse button release (`MOUSEBUTTONUP`, button 1) at position
`(x, y)` — the "pointer release" of the spec. -/
def mouseReleaseAt (x y : Rat) : Event :=
  { type := MOUSEBUTTONUP, button := some 1, pos := (x, y) }

/-- Forgetting the (mutable) `key` attribute of an event; used to state
which part of the batch `find_choice_event` may change. -/
def Event.eraseKey (e : Event) : Event :=
  { e with key := none }

/-! ### `PiApplication.picture_filename` and capture choices -/

/-- Embeds `picture_filename`: raises `EnvironmentError` when
`not self.capture_date` (the attribute is `None` or the empty string,
both falsy), else returns `"{capture_date}_pibooth.jpg"`.  The property
reads `capture_date` only, so it is a function of that attribute. -/
def pictureFilename (captureDate : Option String) : Except String String :=
  match captureDate with
  | none => .error "The capture_date attribute is not set yet"
  | some d =>
    if d = "" then .error "The capture_date attribute is not set yet"
    else .ok (d ++ "_pibooth.jpg")

/-- Initial `self.capture_choices = (1, 2, 4)` from `PiApplication.__init__`. -/
def initCaptureChoices : List Int := [1, 2, 4]

/-- The valid captures numbers `[1, 2, 3, 4]` from `_initialize`. -/
def validCaptureValues : List Int := [1, 2, 3, 4]

/-- The captures-choices update of `_initialize`: walk the configured
tuple; at the first value outside `[1, 2, 3, 4]`, fall back to the
previous `capture_choices` (the loop `break`s); otherwise keep the
configured tuple.  The result is assigned to `self.capture_choices`. -/
def updateCaptureChoices (old cfg : List Int) : List Int :=
  go cfg
where
  go : List Int → List Int
    | [] => cfg
    | c :: rest => if c ∈ validCaptureValues then go rest else old

/-! ### The state machine (modelled from the spec)

`pibooth.states.StateMachine` is not among the sources; the operations
below follow spec §4.3 ("StateMachine") word for word:
`add_state` fails with `DuplicateStateError` if the name is already
present; `remove_state` fails with `UnknownStateError` if absent and
`InvalidOperationError` if the name is current; `add_failsafe_state`
requires the name to be already declared. -/

inductive MachineError where
  | duplicateState
  | unknownState
  | invalidOperation
  deriving Repr, DecidableEq

/-- Modelled from the spec: the machine state of §4.3,
`{declared: set of names, current: name or uninitialized,
failsafe: optional name}`. -/
structure StateMachine where
  states : List String
  current : Option String
  failsafe : Option String
  deriving Repr, DecidableEq

/-- Modelled from the spec: `add_state(name)` inserts into `declared`;
fails with `DuplicateStateError` if already present. -/
def addState (m : StateMachine) (name : String) : Except MachineError StateMachine :=
  if name ∈ m.states then .error .duplicateState
  else .ok { m with states := m.states ++ [name] }

/-- Modelled from the spec: `remove_state(name)` deletes from
`declared`; fails with `UnknownStateError` if absent, or
`InvalidOperationError` if `name == current`. -/
def removeState (m : StateMachine) (name : String) : Except MachineError StateMachine :=
  if name ∉ m.states then .error .unknownState
  else if m.current = some name then .error .invalidOperation
  else .ok { m with states := m.states.erase name }

/-- Modelled from the spec: `add_failsafe_state(name)` sets the
failsafe pointer; the failsafe name must already be declared (absent
names are reported like any unknown state). -/
def addFailsafeState (m : StateMachine) (name : String) : Except MachineError StateMachine :=
  if name ∈ m.states then .ok { m with failsafe := some name }
  else .error .unknownState

/-- The machine set up by `PiApplication.__init__` (booth.py lines
104–112): eight `add_state` calls on a fresh machine, before any
`set_state`. -/
def initMachine : Except MachineError StateMachine := do
  let m : StateMachine := { states := [], current := none, failsafe := none }
  let m ← addState m "wait"
  let m ← addState m "choose"
  let m ← addState m "chosen"
  let m ← addState m "preview"
  let m ← addState m "capture"
  let m ← addState m "processing"
  let m ← addState m "print"
  addState m "finish"

/-- The state names declared in `PiApplication.__init__`, in `add_state`
order. -/
def declaredStates : List String :=
  ["wait", "choose", "chosen", "preview", "capture", "processing", "print", "finish"]

/-! ### `ViewPlugin` validate hooks (`plugins/view_plugin.py`)

Each hook is a function of the values it reads: timer expiries
(`PoolingTimer.is_timeout()`), configuration floats, printer readiness
and the application attributes.  A hook that falls off the end of its
Python body returns `None`. -/

/-- Embeds `state_failsafe_validate`: `'wait'` once the failed-view timer has
timed out. -/
def stateFailsafeValidate (failedTimeout : Bool) : Option String :=
  if failedTimeout then some "wait" else none

/-- Embeds `state_wait_validate`: `'choose'` when the batch holds a center
event. -/
def stateWaitValidate (win : PiWindow) (events : List Event) : Option String :=
  if (findCenterEvent win events).1.isSome then some "choose" else none

/-- Python truthiness of `app.capture_nbr` (`None` and `0` are falsy). -/
def captureNbrTruthy : Option Nat → Prop
  | none => False
  | some n => n ≠ 0

instance (o : Option Nat) : Decidable (captureNbrTruthy o) := by
  cases o <;> unfold captureNbrTruthy <;> infer_instance

/-- Embeds `state_choose_validate`: once a capture number is chosen, `'chosen'`
if the chosen-delay is positive else `'preview'`; otherwise `'wait'` on
timeout of the choose timer. -/
def stateChooseValidate (captureNbr : Option Nat) (chosenDelay : Rat)
    (chooseTimeout : Bool) : Option String :=
  if captureNbrTruthy captureNbr then
    if 0 < chosenDelay then some "chosen" else some "preview"
  else if chooseTimeout then some "wait"
  else none

/-- Embeds `state_chosen_validate`: `'preview'` on layout-timer timeout. -/
def stateChosenValidate (layoutTimeout : Bool) : Option String :=
  if layoutTimeout then some "preview" else none

/-- Embeds `state_preview_validate`: always `'capture'`. -/
def statePreviewValidate : Option String :=
  some "capture"

/-- Embeds `state_capture_validate`: `'processing'` once `count` reaches
`capture_nbr`, else `'preview'`. -/
def stateCaptureValidate (count captureNbr : Nat) : Option String :=
  if captureNbr ≤ count then some "processing" else some "preview"

/-- Embeds `state_processing_validate`: `'print'` when the printer is ready and
the printer delay is positive, else `'wait'` (the `'finish'` return is
commented out in the source). -/
def stateProcessingValidate (printerReady : Bool) (printerDelay : Rat) : Option String :=
  if printerReady = true ∧ 0 < printerDelay then some "print" else some "wait"

/-- Embeds `state_print_validate`: `'wait'` on print-view timeout or on a right
event (the `'finish'` return is commented out in the source). -/
def statePrintValidate (win : PiWindow) (events : List Event)
    (printTimeout : Bool) : Option String :=
  if printTimeout = true ∨ (findRightEvent win events).1.isSome then some "wait" else none

/-- The results of all eight `ViewPlugin` validate hooks at one choice
of arguments (the only core plugins are `ViewPlugin` and `FlashPlugin`,
and `FlashPlugin` implements no validate hook). -/
def viewPluginValidateResults (win : PiWindow) (events : List Event)
    (captureNbr : Option Nat) (chosenDelay : Rat) (chooseTimeout : Bool)
    (layoutTimeout : Bool) (count captureTarget : Nat) (printerReady : Bool)
    (printerDelay : Rat) (printTimeout failedTimeout : Bool) : List (Option String) :=
  [ stateFailsafeValidate failedTimeout
  , stateWaitValidate win events
  , stateChooseValidate captureNbr chosenDelay chooseTimeout
  , stateChosenValidate layoutTimeout
  , statePreviewValidate
  , stateCaptureValidate count captureTarget
  , stateProcessingValidate printerReady printerDelay
  , statePrintValidate win events printTimeout ]

/-! ### Per-tick machine dispatch and reachable states

Per spec §2 and §4.3, `StateMachine.process(events)` dispatches
`state_<current>_validate` with FIRST_RESULT aggregation; among the
core plugins only `ViewPlugin` implements validate hooks.  The ambient
values a tick's validate dispatch can read are bundled in `TickCtx`. -/

structure TickCtx where
  win : PiWindow
  events : List Event
  captureNbr : Option Nat
  chosenDelay : Rat
  count : Nat
  printerReady : Bool
  printerDelay : Rat
  chooseTimeout : Bool
  layoutTimeout : Bool
  printTimeout : Bool
  failedTimeout : Bool

/-- The FIRST_RESULT validate dispatch for the current state under the
core plugins.  In state `capture` a `None` `capture_nbr` would make the
Python comparison raise; raising hooks are covered by the separate
failure transition of `ReachableState`, so the dispatch itself is the
non-raising case. -/
def validateDispatch (st : String) (c : TickCtx) : Option String :=
  if st = "wait" then stateWaitValidate c.win c.events
  else if st = "choose" then stateChooseValidate c.captureNbr c.chosenDelay c.chooseTimeout
  else if st = "chosen" then stateChosenValidate c.layoutTimeout
  else if st = "preview" then statePreviewValidate
  else if st = "capture" then
    match c.captureNbr with
    | some n => stateCaptureValidate c.count n
    | none => none
  else if st = "processing" then stateProcessingValidate c.printerReady c.printerDelay
  else if st = "print" then statePrintValidate c.win c.events c.printTimeout
  else if st = "failsafe" then stateFailsafeValidate c.failedTimeout
  else none

/-- The states the machine's current pointer can take after startup:
`set_state` is called only with `'wait'` (booth.py lines 382 and 415);
each tick may follow the validate result (spec §4.3 step 3); a failing
hook may force-jump to the failsafe state `'failsafe'` (spec §4.3
step 4, booth.py line 192). -/
inductive ReachableState : String → Prop where
  | startup : ReachableState "wait"
  | validate (s t : String) (c : TickCtx) (hs : ReachableState s)
      (h : validateDispatch s c = some t) : ReachableState t
  | failure (s : String) (hs : ReachableState s) : ReachableState "failsafe"

/-! ### The main loop (`PiApplication.main_loop`)

The loop is modelled as a trace of the externally visible actions it
performs, driven by an environment that fixes, per run, whether the
pre-loop calls raise and, per tick, the event batch and whether
`machine.process` raises.  `_initialize`, the startup hook and
`set_state('wait')` run inside the `try` before the `while`; the
`except` logs and the `finally` runs the cleanup hook and
`pygame.quit()`. -/

inductive LoopAct where
  /-- a call of `_initialize` -/
  | initCall
  /-- dispatch of the `pibooth_startup` hook -/
  | startupHook
  /-- `machine.set_state('wait')` -/
  | setStateWait
  /-- `window.toggle_fullscreen()` -/
  | toggleFullscreen
  /-- the unpause-printer subprocess call (its exceptions are caught) -/
  | unpauseCall
  /-- `window.resize(event.size)` -/
  | resizeWin
  /-- opening the settings menu (`PiConfigMenu` + `show`) -/
  | menuShow
  /-- `menu.process(events)` -/
  | menuTick
  /-- closing the menu branch (`leds.off`, menu dropped) -/
  | menuClose
  /-- `machine.process(events)` -/
  | processTick
  /-- `pygame.display.update()` -/
  | displayUpdate
  /-- the `except` branch logging -/
  | crashLog
  /-- dispatch of the `pibooth_cleanup` hook -/
  | cleanupHook
  /-- `pygame.quit()` -/
  | quitGame
  deriving Repr, DecidableEq

/-- One tick's external input: the event batch of `pygame.event.get()`
and whether `machine.process` raises out of the tick (the loop-body
error path). -/
structure TickIn where
  events : List Event
  processRaises : Bool

/-- One run's external input. -/
structure LoopEnv where
  initRaises : Bool
  startupRaises : Bool
  setStateRaises : Bool
  ticks : List TickIn

/-- The menu chain of one tick (booth.py lines 404–418), given the menu
as an optional is-shown flag.  `PiConfigMenu` is outside the sources;
its `process` is modelled as leaving the flag unchanged, which is
irrelevant because the menu-opening branch is proved unreachable. -/
def menuChain (menu : Option Bool) (events : List Event) :
    List LoopAct × Option Bool × Bool :=
  if menu = none ∧ (findSettingsEvent events).1.isSome then
    ([.menuShow], some true, false)
  else if menu.isSome ∧ menu = some true then
    ([.menuTick], menu, false)
  else if menu.isSome ∧ ¬menu = some true then
    ([.menuClose, .initCall, .setStateWait], none, false)
  else
    ([.processTick], menu, true)

/-- The fullscreen / unpause / resize actions of one tick. -/
def preActs (events : List Event) : List LoopAct :=
  (if (findFullscreenEvent events).1.isSome then [.toggleFullscreen] else []) ++
  (if (findUnpausePrinterEvent events).1.isSome then [.unpauseCall] else []) ++
  (if (findResizeEvent events).1.isSome then [.resizeWin] else [])

/-- The `while True` loop: stop on a quit event (`break`) or when
`machine.process` raises (second component `true`); otherwise run the
tick's actions and continue.  A run whose tick list is exhausted
without either is a still-running prefix, not a termination path. -/
def runLoop (menu : Option Bool) : List TickIn → List LoopAct × Bool
  | [] => ([], false)
  | t :: rest =>
    if (findQuitEvent t.events).1.isSome then ([], false)
    else
      let mc := menuChain menu t.events
      if mc.2.2 = true ∧ t.processRaises = true then
        (preActs t.events ++ mc.1, true)
      else
        let r := runLoop mc.2.1 rest
        (preActs t.events ++ mc.1 ++ [.displayUpdate] ++ r.1, r.2)

/-- The full trace of `main_loop`: try-body (pre-loop calls, then loop)
with the `except` logging on any raise, then the `finally` clause. -/
def mainLoopTrace (env : LoopEnv) : List LoopAct :=
  (LoopAct.initCall ::
    (if env.initRaises then [LoopAct.crashLog]
     else LoopAct.startupHook ::
       (if env.startupRaises then [LoopAct.crashLog]
        else LoopAct.setStateWait ::
          (if env.setStateRaises then [LoopAct.crashLog]
           else
             let r := runLoop none env.ticks
             r.1 ++ (if r.2 then [LoopAct.crashLog] else []))))) ++
  [LoopAct.cleanupHook, LoopAct.quitGame]

/-- A run terminates when the loop breaks on a quit event or an
exception escapes somewhere: every path except exhausting the finite
tick list without quit or failure. -/
def terminates (env : LoopEnv) : Prop :=
  env.initRaises = true ∨ env.startupRaises = true ∨ env.setStateRaises = true ∨
    (runLoop none env.ticks).2 = true ∨
    ∃ t ∈ env.ticks, (findQuitEvent t.events).1.isSome

/-- The number of ticks the live loop consumes that are not quit ticks,
counting up to (and including) a tick whose `process` raises — the
ticks the claim says must each reach `machine.process`. -/
def nonQuitConsumed : List TickIn → Nat
  | [] => 0
  | t :: rest =>
    if (findQuitEvent t.events).1.isSome then 0
    else if t.processRaises then 1
    else 1 + nonQuitConsumed rest

/-! ### Predicates written from the claims (for the refinement
statements of C6) -/

/-- The quit predicate as the claim words it: a `QUIT` event or a
`KEYDOWN` with key `ESCAPE` or `q`. -/
def quitPredSpec (e : Event) : Bool :=
  decide (e.type = QUIT ∨ (e.type = KEYDOWN ∧ (e.key = some K_ESCAPE ∨ e.key = some K_q)))

/-- The fullscreen predicate as the claim words it: a `KEYDOWN` with
key `f`. -/
def fullscreenPredSpec (e : Event) : Bool :=
  decide (e.type = KEYDOWN ∧ e.key = some K_f)

/-- The resize predicate as the claim words it: a `VIDEORESIZE`
event. -/
def resizePredSpec (e : Event) : Bool :=
  decide (e.type = VIDEORESIZE)

/-! ## Helper lemmas -/

theorem findQuitEventFst (l : List Event) : (findQuitEvent l).1 = l.find? quitPredSpec := by
  induction l with
  | nil => rfl
  | cons e rest ih =>
    by_cases h1 : e.type = QUIT
    · simp [findQuitEvent, h1, List.find?, quitPredSpec]
    · by_cases h2 : e.type = KEYDOWN ∧ (e.key = some K_ESCAPE ∨ e.key = some K_q)
      · simp [findQuitEvent, h1, h2, List.find?, quitPredSpec]
      · simp only [findQuitEvent, if_neg h1, if_neg h2, List.find?, quitPredSpec]
        rw [decide_eq_false (by tauto)]
        exact ih

theorem findFullscreenEventFst (l : List Event) :
    (findFullscreenEvent l).1 = l.find? fullscreenPredSpec := by
  induction l with
  | nil => rfl
  | cons e rest ih =>
    by_cases h : e.type = KEYDOWN ∧ e.key = some K_f
    · simp [findFullscreenEvent, h, List.find?, fullscreenPredSpec]
    · simp only [findFullscreenEvent, if_neg h, List.find?, fullscreenPredSpec]
      rw [decide_eq_false h]
      exact ih

theorem findResizeEventFst (l : List Event) :
    (findResizeEvent l).1 = l.find? resizePredSpec := by
  induction l with
  | nil => rfl
  | cons e rest ih =>
    by_cases h : e.type = VIDEORESIZE
    · simp [findResizeEvent, h, List.find?, resizePredSpec]
    · simp only [findResizeEvent, if_neg h, List.find?, resizePredSpec]
      rw [decide_eq_false h]
      exact ih

theorem findQuitEventSnd (l : List Event) : (findQuitEvent l).2 = l := by
  induction l with
  | nil => rfl
  | cons e rest ih => simp only [findQuitEvent]; split_ifs <;> simp [ih]

theorem findFullscreenEventSnd (l : List Event) : (findFullscreenEvent l).2 = l := by
  induction l with
  | nil => rfl
  | cons e rest ih => simp only [findFullscreenEvent]; split_ifs <;> simp [ih]

theorem findUnpausePrinterEventSnd (l : List Event) : (findUnpausePrinterEvent l).2 = l := by
  induction l with
  | nil => rfl
  | cons e rest ih => simp only [findUnpausePrinterEvent]; split_ifs <;> simp [ih]

theorem findResizeEventSnd (l : List Event) : (findResizeEvent l).2 = l := by
  induction l with
  | nil => rfl
  | cons e rest ih => simp only [findResizeEvent]; split_ifs <;> simp [ih]

theorem findPrintStatusEventSnd (l : List Event) : (findPrintStatusEvent l).2 = l := by
  induction l with
  | nil => rfl
  | cons e rest ih => simp only [findPrintStatusEvent]; split_ifs <;> simp [ih]

theorem findLeftEventSnd (win : PiWindow) (l : List Event) : (findLeftEvent win l).2 = l := by
  induction l with
  | nil => rfl
  | cons e rest ih => simp only [findLeftEvent]; split_ifs <;> simp [ih]

theorem findRightEventSnd (win : PiWindow) (l : List Event) : (findRightEvent win l).2 = l := by
  induction l with
  | nil => rfl
  | cons e rest ih => simp only [findRightEvent]; split_ifs <;> simp [ih]

theorem findCenterEventSnd (win : PiWindow) (l : List Event) : (findCenterEvent win l).2 = l := by
  induction l with
  | nil => rfl
  | cons e rest ih => simp only [findCenterEvent]; split_ifs <;> simp [ih]

theorem eraseKeySetKey (e : Event) (k : Option Nat) :
    Event.eraseKey { e with key := k } = Event.eraseKey e := rfl

theorem findChoiceEventSndEraseKey (win : PiWindow) (l : List Event) :
    ((findChoiceEvent win l).2).map Event.eraseKey = l.map Event.eraseKey := by
  induction l with
  | nil => rfl
  | cons e rest ih =>
    simp only [findChoiceEvent]
    split_ifs <;> simp [ih, eraseKeySetKey]

/-! ## Claim theorems -/

/-- C6: each single-predicate classifier returns the first element of
the batch satisfying its predicate and `None` when no element does:
`find_quit_event` matches a `QUIT` event or a `KEYDOWN` with key
`ESCAPE` or `q`, `find_fullscreen_event` a `KEYDOWN` with key `f`, and
`find_resize_event` a `VIDEORESIZE` event. -/
theorem singlePredicateClassifiersFirstMatch (l : List Event) :
    (findQuitEvent l).1 = l.find? quitPredSpec ∧
    (findFullscreenEvent l).1 = l.find? fullscreenPredSpec ∧
    (findResizeEvent l).1 = l.find? resizePredSpec :=
  ⟨findQuitEventFst l, findFullscreenEventFst l, findResizeEventFst l⟩

/-- The batch whose classification mutates an event: a `BUTTONDOWN`
event for the physical right button, which carries no `key`
attribute. -/
def choiceMutationBatch : List Event := [{ type := BUTTONDOWN, right := true }]

/-- C3 counterexample: `find_choice_event` does not leave the batch
unchanged — on a `BUTTONDOWN` right-button event it assigns
`event.key = K_RIGHT`, mutating the event in place. -/
theorem findChoiceEventMutatesBatch :
    (findChoiceEvent ⟨300, 200⟩ choiceMutationBatch).2 ≠ choiceMutationBatch ∧
    (findChoiceEvent ⟨300, 200⟩ choiceMutationBatch).2 =
      [{ type := BUTTONDOWN, right := true, key := some K_RIGHT }] := by
  constructor
  · decide
  · decide

/-- C3 (amended): every classifier except `find_choice_event` is a pure
function of the batch (the batch and, the classifiers being functions
of the window size and the batch alone, all application state are left
unchanged); `find_choice_event` changes at most the `key` attribute of
events, assigning the mapped direction key to the returned match. -/
theorem classifiersLeaveBatchUnchanged (win : PiWindow) (l : List Event) :
    (findQuitEvent l).2 = l ∧
    (findSettingsEvent l).2 = l ∧
    (findFullscreenEvent l).2 = l ∧
    (findUnpausePrinterEvent l).2 = l ∧
    (findResizeEvent l).2 = l ∧
    (findLeftEvent win l).2 = l ∧
    (findRightEvent win l).2 = l ∧
    (findCenterEvent win l).2 = l ∧
    (findPrintStatusEvent l).2 = l ∧
    ((findChoiceEvent win l).2).map Event.eraseKey = l.map Event.eraseKey :=
  ⟨findQuitEventSnd l, rfl, findFullscreenEventSnd l, findUnpausePrinterEventSnd l,
    findResizeEventSnd l, findLeftEventSnd win l, findRightEventSnd win l,
    findCenterEventSnd win l, findPrintStatusEventSnd l, findChoiceEventSndEraseKey win l⟩

/-- C10: `picture_filename` fails if and only if `capture_date` is
unset (`None` or empty, both falsy under `not self.capture_date`);
otherwise it returns `capture_date` followed by `"_pibooth.jpg"`.  The
property only reads `capture_date`, so the application state is
untouched. -/
theorem pictureFilenameSpec (cd : Option String) :
    ((∃ msg, pictureFilename cd = .error msg) ↔ cd = none ∨ cd = some "") ∧
    (∀ d, cd = some d → d ≠ "" → pictureFilename cd = .ok (d ++ "_pibooth.jpg")) := by
  refine ⟨⟨?_, ?_⟩, ?_⟩
  · rintro ⟨msg, h⟩
    match cd with
    | none => exact Or.inl rfl
    | some d =>
      by_cases hd : d = ""
      · exact Or.inr (by rw [hd])
      · simp [pictureFilename, hd] at h
  · rintro (rfl | rfl) <;> exact ⟨_, rfl⟩
  · rintro d rfl hd
    simp [pictureFilename, hd]

/-- C10 witness: at `capture_date = "2024-06-01-12-00-00"` the name is
produced, and at an unset `capture_date` the error is raised. -/
theorem pictureFilenameSpecWitness :
    pictureFilename (some "2024-06-01-12-00-00") = .ok "2024-06-01-12-00-00_pibooth.jpg" ∧
    (∃ msg, pictureFilename none = .error msg) :=
  ⟨(pictureFilenameSpec (some "2024-06-01-12-00-00")).2 _ rfl (by decide),
    (pictureFilenameSpec none).1.mpr (Or.inl rfl)⟩

theorem updateGoInvalid (old cfg : List Int) (l : List Int)
    (h : ∃ x ∈ l, x ∉ validCaptureValues) :
    updateCaptureChoices.go old cfg l = old := by
  induction l with
  | nil => simp at h
  | cons c rest ih =>
    by_cases hc : c ∈ validCaptureValues
    · have : ∃ x ∈ rest, x ∉ validCaptureValues := by
        rcases h with ⟨x, hx, hxv⟩
        rcases List.mem_cons.mp hx with rfl | hx
        · exact absurd hc hxv
        · exact ⟨x, hx, hxv⟩
      simp [updateCaptureChoices.go, hc, ih this]
    · simp [updateCaptureChoices.go, hc]

theorem updateGoResult (old cfg : List Int) (l : List Int) :
    updateCaptureChoices.go old cfg l = cfg ∨ updateCaptureChoices.go old cfg l = old := by
  induction l with
  | nil => exact Or.inl rfl
  | cons c rest ih =>
    by_cases hc : c ∈ validCaptureValues
    · simpa [updateCaptureChoices.go, hc] using ih
    · simp [updateCaptureChoices.go, hc]

/-- C9: `capture_choices` only ever holds values in `{1, 2, 3, 4}`: the
initial tuple `(1, 2, 4)` is valid, and the `_initialize` update keeps
a valid previous tuple whenever any configured value is invalid, so a
valid tuple stays valid through the update. -/
theorem captureChoicesInvariant (old cfg : List Int)
    (hold : ∀ x ∈ old, x ∈ validCaptureValues) :
    (∀ x ∈ initCaptureChoices, x ∈ validCaptureValues) ∧
    (∀ x ∈ updateCaptureChoices old cfg, x ∈ validCaptureValues) ∧
    ((∃ x ∈ cfg, x ∉ validCaptureValues) → updateCaptureChoices old cfg = old) := by
  refine ⟨by decide, ?_, ?_⟩
  · by_cases hcfg : ∀ x ∈ cfg, x ∈ validCaptureValues
    · rcases updateGoResult old cfg cfg with h | h <;>
        unfold updateCaptureChoices <;> rw [h]
      · exact hcfg
      · exact hold
    · push_neg at hcfg
      rcases hcfg with ⟨x, hx, hxv⟩
      unfold updateCaptureChoices
      rw [updateGoInvalid old cfg cfg ⟨x, hx, hxv⟩]
      exact hold
  · intro h
    unfold updateCaptureChoices
    exact updateGoInvalid old cfg cfg h

/-- C9 witness: from the initial tuple `(1, 2, 4)` and the invalid
configured tuple `(5,)`, the update keeps `(1, 2, 4)`. -/
theorem captureChoicesInvariantWitness :
    (∀ x ∈ initCaptureChoices, x ∈ validCaptureValues) ∧
    (∀ x ∈ updateCaptureChoices [1, 2, 4] [5], x ∈ validCaptureValues) ∧
    ((∃ x ∈ [(5 : Int)], x ∉ validCaptureValues) → updateCaptureChoices [1, 2, 4] [5] = [1, 2, 4]) :=
  captureChoicesInvariant [1, 2, 4] [5] (by decide)

/-! ## Directional zones (C1) -/

theorem mouseReleasePointer (x y : Rat) : pointerReleased (mouseReleaseAt x y) :=
  Or.inl ⟨rfl, Or.inl rfl⟩

theorem mouseReleasePos (ds : Nat × Nat) (x y : Rat) :
    getEventPos ds (mouseReleaseAt x y) = (x, y) := by
  unfold getEventPos
  rw [if_neg]
  · rfl
  · simp [mouseReleaseAt, MOUSEBUTTONUP, FINGERDOWN, FINGERMOTION, FINGERUP]

theorem findLeftSingletonPointer (win : PiWindow) (x y : Rat)
    (hc : (Rect.mk 0 0 ((win.width / 3 : Nat) : Int) (win.height : Int)).collidepoint (x, y)) :
    (findLeftEvent win [mouseReleaseAt x y]).1 = some (mouseReleaseAt x y) := by
  have hkd : ¬((mouseReleaseAt x y).type = KEYDOWN ∧ (mouseReleaseAt x y).key = some K_LEFT) := by
    simp [mouseReleaseAt, MOUSEBUTTONUP, KEYDOWN]
  simp only [findLeftEvent, mouseReleasePos]
  rw [if_neg hkd, if_pos ⟨mouseReleasePointer x y, hc⟩]

theorem findCenterSingletonPointer (win : PiWindow) (x y : Rat)
    (hc : (Rect.mk ((win.width / 3 : Nat) : Int) 0 ((win.width / 3 : Nat) : Int)
      (win.height : Int)).collidepoint (x, y)) :
    (findCenterEvent win [mouseReleaseAt x y]).1 = some (mouseReleaseAt x y) := by
  have hkd : ¬((mouseReleaseAt x y).type = KEYDOWN ∧
      ((mouseReleaseAt x y).key = some K_UP ∨ (mouseReleaseAt x y).key = some K_DOWN)) := by
    simp [mouseReleaseAt, MOUSEBUTTONUP, KEYDOWN]
  simp only [findCenterEvent, mouseReleasePos]
  rw [if_neg hkd, if_pos ⟨mouseReleasePointer x y, hc⟩]

theorem findRightSingletonPointer (win : PiWindow) (x y : Rat)
    (hc : (Rect.mk (((win.width / 3 : Nat) : Int) * 2) 0 ((win.width / 3 : Nat) : Int)
      (win.height : Int)).collidepoint (x, y)) :
    (findRightEvent win [mouseReleaseAt x y]).1 = some (mouseReleaseAt x y) := by
  have hkd : ¬((mouseReleaseAt x y).type = KEYDOWN ∧ (mouseReleaseAt x y).key = some K_RIGHT) := by
    simp [mouseReleaseAt, MOUSEBUTTONUP, KEYDOWN]
  simp only [findRightEvent, mouseReleasePos]
  rw [if_neg hkd, if_pos ⟨mouseReleasePointer x y, hc⟩]

/-- C1 counterexample: the claim fails at width 10 — the code's right
zone is `Rect((10 // 3) * 2, 0, 10 // 3, h) = [6, 9)`, not
`[2 × 10 / 3, 10)`, so the release at `x = 10 × 0.9 = 9` is not
classified right (`find_right_event` returns `None`, not the
event). -/
theorem directionalZonesCounterexample :
    (10 : Rat) * (9 / 10) = 9 ∧
    (findRightEvent ⟨10, 10⟩ [mouseReleaseAt 9 5]).1 = none := by
  constructor
  · norm_num
  · decide

/-- C1 (amended): for every window width divisible by 3 (so that the
integer zone bounds `width // 3` and `(width // 3) * 2` coincide with
`width/3` and `2×width/3`) and any in-window vertical coordinate, a
pointer release at `x = width×0.1` is classified left, at
`x = width×0.5` center, and at `x = width×0.9` right; for other widths
the truncated bounds can exclude the sample points. -/
theorem directionalZonesClassify (w h : Nat) (hw : 0 < w) (h3 : w % 3 = 0)
    (y : Rat) (hy0 : 0 ≤ y) (hyh : y < (h : Rat)) :
    (findLeftEvent ⟨w, h⟩ [mouseReleaseAt ((w : Rat) * (1 / 10)) y]).1
      = some (mouseReleaseAt ((w : Rat) * (1 / 10)) y) ∧
    (findCenterEvent ⟨w, h⟩ [mouseReleaseAt ((w : Rat) * (1 / 2)) y]).1
      = some (mouseReleaseAt ((w : Rat) * (1 / 2)) y) ∧
    (findRightEvent ⟨w, h⟩ [mouseReleaseAt ((w : Rat) * (9 / 10)) y]).1
      = some (mouseReleaseAt ((w : Rat) * (9 / 10)) y) := by
  obtain ⟨k, rfl⟩ : ∃ k, w = 3 * k := ⟨w / 3, by omega⟩
  have hk : 0 < k := by omega
  have hk3 : 3 * k / 3 = k := by omega
  have hkq : (0 : Rat) < (k : Rat) := by exact_mod_cast hk
  refine ⟨findLeftSingletonPointer _ _ _ ?_, findCenterSingletonPointer _ _ _ ?_,
    findRightSingletonPointer _ _ _ ?_⟩ <;>
    simp only [hk3] <;>
    refine ⟨?_, ?_, ?_, ?_⟩ <;> push_cast
  · nlinarith
  · nlinarith
  · exact hy0
  · simpa using hyh
  · nlinarith
  · nlinarith
  · exact hy0
  · simpa using hyh
  · nlinarith
  · nlinarith
  · exact hy0
  · simpa using hyh

/-- C1 witness: at width 30 (divisible by 3) and height 2, the releases
at `x = 3`, `x = 15` and `x = 27` are classified left, center and
right. -/
theorem directionalZonesClassifyWitness :
    (findLeftEvent ⟨30, 2⟩ [mouseReleaseAt ((30 : Rat) * (1 / 10)) 1]).1
      = some (mouseReleaseAt ((30 : Rat) * (1 / 10)) 1) ∧
    (findCenterEvent ⟨30, 2⟩ [mouseReleaseAt ((30 : Rat) * (1 / 2)) 1]).1
      = some (mouseReleaseAt ((30 : Rat) * (1 / 2)) 1) ∧
    (findRightEvent ⟨30, 2⟩ [mouseReleaseAt ((30 : Rat) * (9 / 10)) 1]).1
      = some (mouseReleaseAt ((30 : Rat) * (9 / 10)) 1) :=
  directionalZonesClassify 30 2 (by norm_num) (by norm_num) 1 (by norm_num) (by norm_num)

/-! ## The declared state set and the failsafe name (C2, C4, C8) -/

/-- The machine as `PiApplication.__init__` leaves it. -/
def bootMachine : StateMachine :=
  { states := declaredStates, current := none, failsafe := none }

/-- C2 counterexample: the states added via `add_state` in `__init__`
do not include `'failsafe'`, so at the `_initialize` call sites the
name is not yet declared and, under the spec's preconditions, both
`remove_state('failsafe')` (debug path) and
`add_failsafe_state('failsafe')` (non-debug path) fail with
`UnknownStateError`. -/
theorem failsafeNotDeclaredCounterexample :
    initMachine = Except.ok bootMachine ∧
    "failsafe" ∉ bootMachine.states ∧
    removeState bootMachine "failsafe" = .error .unknownState ∧
    addFailsafeState bootMachine "failsafe" = .error .unknownState :=
  ⟨rfl, by decide, rfl, rfl⟩

/-- C2 (amended): at every point where `_initialize` passes
`'failsafe'` to the machine, that name is NOT a member of the declared
state set built in `__init__`; the call sites rely on the machine
declaring the failsafe name implicitly rather than on the spec's
"already declared" precondition, under which both calls fail with
`UnknownStateError`. -/
theorem failsafeNotDeclared (m : StateMachine) (h : initMachine = .ok m) :
    "failsafe" ∉ m.states ∧
    removeState m "failsafe" = .error .unknownState ∧
    addFailsafeState m "failsafe" = .error .unknownState := by
  have hboot : initMachine = Except.ok (ε := MachineError) bootMachine := rfl
  rw [hboot] at h
  injection h with hm
  subst hm
  exact ⟨by decide, rfl, rfl⟩

/-- C2 witness: the machine produced by `__init__` satisfies the
amended claim. -/
theorem failsafeNotDeclaredWitness :
    "failsafe" ∉ bootMachine.states ∧
    removeState bootMachine "failsafe" = .error .unknownState ∧
    addFailsafeState bootMachine "failsafe" = .error .unknownState :=
  failsafeNotDeclared bootMachine rfl

/-- The names the `ViewPlugin` validate hooks can produce. -/
def coreValidateTargets : List String :=
  ["wait", "choose", "chosen", "preview", "capture", "processing", "print"]

theorem stateFailsafeValidateMem (b : Bool) (s : String)
    (h : stateFailsafeValidate b = some s) : s ∈ coreValidateTargets := by
  unfold stateFailsafeValidate at h
  split_ifs at h
  all_goals first
    | exact Option.noConfusion h
    | (injection h with h2; subst h2; decide)

theorem stateWaitValidateMem (win : PiWindow) (events : List Event) (s : String)
    (h : stateWaitValidate win events = some s) : s ∈ coreValidateTargets := by
  unfold stateWaitValidate at h
  split_ifs at h
  all_goals first
    | exact Option.noConfusion h
    | (injection h with h2; subst h2; decide)

theorem stateChooseValidateMem (captureNbr : Option Nat) (chosenDelay : Rat)
    (chooseTimeout : Bool) (s : String)
    (h : stateChooseValidate captureNbr chosenDelay chooseTimeout = some s) :
    s ∈ coreValidateTargets := by
  unfold stateChooseValidate at h
  split_ifs at h
  all_goals first
    | exact Option.noConfusion h
    | (injection h with h2; subst h2; decide)

theorem stateChosenValidateMem (layoutTimeout : Bool) (s : String)
    (h : stateChosenValidate layoutTimeout = some s) : s ∈ coreValidateTargets := by
  unfold stateChosenValidate at h
  split_ifs at h
  all_goals first
    | exact Option.noConfusion h
    | (injection h with h2; subst h2; decide)

theorem statePreviewValidateMem (s : String)
    (h : statePreviewValidate = some s) : s ∈ coreValidateTargets := by
  unfold statePreviewValidate at h
  injection h with h2; subst h2; decide

theorem stateCaptureValidateMem (count captureNbr : Nat) (s : String)
    (h : stateCaptureValidate count captureNbr = some s) : s ∈ coreValidateTargets := by
  unfold stateCaptureValidate at h
  split_ifs at h
  all_goals first
    | exact Option.noConfusion h
    | (injection h with h2; subst h2; decide)

theorem stateProcessingValidateMem (printerReady : Bool) (printerDelay : Rat) (s : String)
    (h : stateProcessingValidate printerReady printerDelay = some s) :
    s ∈ coreValidateTargets := by
  unfold stateProcessingValidate at h
  split_ifs at h
  all_goals first
    | exact Option.noConfusion h
    | (injection h with h2; subst h2; decide)

theorem statePrintValidateMem (win : PiWindow) (events : List Event) (printTimeout : Bool)
    (s : String) (h : statePrintValidate win events printTimeout = some s) :
    s ∈ coreValidateTargets := by
  unfold statePrintValidate at h
  split_ifs at h
  all_goals first
    | exact Option.noConfusion h
    | (injection h with h2; subst h2; decide)

theorem viewValidateResultsMem (win : PiWindow) (events : List Event)
    (captureNbr : Option Nat) (chosenDelay : Rat) (chooseTimeout layoutTimeout : Bool)
    (count captureTarget : Nat) (printerReady : Bool) (printerDelay : Rat)
    (printTimeout failedTimeout : Bool) (s : String)
    (h : some s ∈ viewPluginValidateResults win events captureNbr chosenDelay chooseTimeout
      layoutTimeout count captureTarget printerReady printerDelay printTimeout failedTimeout) :
    s ∈ coreValidateTargets := by
  simp only [viewPluginValidateResults, List.mem_cons, List.not_mem_nil, or_false] at h
  rcases h with h | h | h | h | h | h | h | h
  · exact stateFailsafeValidateMem _ _ h.symm
  · exact stateWaitValidateMem _ _ _ h.symm
  · exact stateChooseValidateMem _ _ _ _ h.symm
  · exact stateChosenValidateMem _ _ h.symm
  · exact statePreviewValidateMem _ h.symm
  · exact stateCaptureValidateMem _ _ _ h.symm
  · exact stateProcessingValidateMem _ _ _ h.symm
  · exact statePrintValidateMem _ _ _ _ h.symm

theorem coreTargetsDeclared (s : String) (h : s ∈ coreValidateTargets) :
    s ∈ declaredStates := by
  fin_cases h <;> decide

/-- C4: every non-null state name returned by any validate hook of the
core `ViewPlugin` is a member of the state set declared via `add_state`
in `PiApplication.__init__`, so the machine's fail-fast check on
undeclared validate results never fires for the core plugins. -/
theorem viewPluginValidatesDeclared (win : PiWindow) (events : List Event)
    (captureNbr : Option Nat) (chosenDelay : Rat) (chooseTimeout layoutTimeout : Bool)
    (count captureTarget : Nat) (printerReady : Bool) (printerDelay : Rat)
    (printTimeout failedTimeout : Bool) (s : String)
    (h : some s ∈ viewPluginValidateResults win events captureNbr chosenDelay chooseTimeout
      layoutTimeout count captureTarget printerReady printerDelay printTimeout failedTimeout) :
    s ∈ declaredStates :=
  coreTargetsDeclared s
    (viewValidateResultsMem win events captureNbr chosenDelay chooseTimeout layoutTimeout
      count captureTarget printerReady printerDelay printTimeout failedTimeout s h)

/-- C4 witness: with a `K_UP` key press in the batch,
`state_wait_validate` produces `'choose'`, which is declared. -/
theorem viewPluginValidatesDeclaredWitness : "choose" ∈ declaredStates :=
  viewPluginValidatesDeclared ⟨30, 2⟩ [{ type := KEYDOWN, key := some K_UP }]
    none 0 false false 0 0 false 0 false false "choose" (by decide)

theorem validateDispatchMem (st : String) (c : TickCtx) (s : String)
    (h : validateDispatch st c = some s) : s ∈ coreValidateTargets := by
  unfold validateDispatch at h
  split_ifs at h
  · exact stateWaitValidateMem _ _ _ h
  · exact stateChooseValidateMem _ _ _ _ h
  · exact stateChosenValidateMem _ _ h
  · exact statePreviewValidateMem _ h
  · match hcn : c.captureNbr with
    | some n => rw [hcn] at h; exact stateCaptureValidateMem _ _ _ h
    | none => rw [hcn] at h; exact Option.noConfusion h
  · exact stateProcessingValidateMem _ _ _ h
  · exact statePrintValidateMem _ _ _ _ h
  · exact stateFailsafeValidateMem _ _ h

/-- C8: the declared state `'finish'` is unreachable under the core
plugins: no `ViewPlugin` validate hook ever produces `'finish'` (the
`'finish'` returns are commented out in favour of `'wait'`), and with
`set_state` only ever called with `'wait'`, the machine's current state
after startup is never `'finish'` on any tick sequence. -/
theorem finishStateUnreachable :
    (∀ (win : PiWindow) (events : List Event) (captureNbr : Option Nat) (chosenDelay : Rat)
        (chooseTimeout layoutTimeout : Bool) (count captureTarget : Nat) (printerReady : Bool)
        (printerDelay : Rat) (printTimeout failedTimeout : Bool),
      some "finish" ∉ viewPluginValidateResults win events captureNbr chosenDelay chooseTimeout
        layoutTimeout count captureTarget printerReady printerDelay printTimeout failedTimeout) ∧
    (∀ s, ReachableState s → s ≠ "finish") := by
  constructor
  · intro win events captureNbr chosenDelay chooseTimeout layoutTimeout count captureTarget
      printerReady printerDelay printTimeout failedTimeout h
    exact absurd
      (viewValidateResultsMem win events captureNbr chosenDelay chooseTimeout layoutTimeout
        count captureTarget printerReady printerDelay printTimeout failedTimeout "finish" h)
      (by decide)
  · intro s hs
    induction hs with
    | startup => decide
    | validate s t c hs hv ih =>
      have ht := validateDispatchMem s c t hv
      intro he
      subst he
      exact absurd ht (by decide)
    | failure s hs ih => decide

/-- C8 witness: an empty batch yields no `'finish'` validate result,
and the startup state `'wait'` differs from `'finish'`. -/
theorem finishStateUnreachableWitness :
    some "finish" ∉ viewPluginValidateResults ⟨30, 2⟩ [] none 0 false false 0 0 false 0
      false false ∧
    "wait" ≠ "finish" :=
  ⟨finishStateUnreachable.1 ⟨30, 2⟩ [] none 0 false false 0 0 false 0 false false,
    finishStateUnreachable.2 "wait" ReachableState.startup⟩

/-! ## Main-loop lemmas (C5, C7) -/

theorem startupNotInPreActs (events : List Event) :
    LoopAct.startupHook ∉ preActs events := by
  unfold preActs; split_ifs <;> decide

theorem cleanupNotInPreActs (events : List Event) :
    LoopAct.cleanupHook ∉ preActs events := by
  unfold preActs; split_ifs <;> decide

theorem menuShowNotInPreActs (events : List Event) :
    LoopAct.menuShow ∉ preActs events := by
  unfold preActs; split_ifs <;> decide

theorem processCountPreActs (events : List Event) :
    (preActs events).count LoopAct.processTick = 0 := by
  unfold preActs; split_ifs <;> decide

/-- With no menu open, `find_settings_event` never fires and the menu
chain of every tick is exactly one `machine.process(events)` call,
leaving the menu closed. -/
theorem menuChainNone (events : List Event) :
    menuChain none events = ([LoopAct.processTick], none, true) := by
  simp [menuChain, findSettingsEvent]

theorem runLoopNoStartup (ts : List TickIn) :
    LoopAct.startupHook ∉ (runLoop none ts).1 := by
  induction ts with
  | nil => simp [runLoop]
  | cons t rest ih =>
    simp only [runLoop, menuChainNone]
    split_ifs <;>
      simp [List.mem_append, startupNotInPreActs t.events, ih]

theorem runLoopNoCleanup (ts : List TickIn) :
    LoopAct.cleanupHook ∉ (runLoop none ts).1 := by
  induction ts with
  | nil => simp [runLoop]
  | cons t rest ih =>
    simp only [runLoop, menuChainNone]
    split_ifs <;>
      simp [List.mem_append, cleanupNotInPreActs t.events, ih]

theorem runLoopNoMenuShow (ts : List TickIn) :
    LoopAct.menuShow ∉ (runLoop none ts).1 := by
  induction ts with
  | nil => simp [runLoop]
  | cons t rest ih =>
    simp only [runLoop, menuChainNone]
    split_ifs <;>
      simp [List.mem_append, menuShowNotInPreActs t.events, ih]

theorem runLoopProcessCount (ts : List TickIn) :
    ((runLoop none ts).1).count LoopAct.processTick = nonQuitConsumed ts := by
  induction ts with
  | nil => rfl
  | cons t rest ih =>
    simp only [runLoop, menuChainNone, nonQuitConsumed]
    split_ifs with h1 h2 h3 <;>
      (simp_all [List.count_append, processCountPreActs t.events, ih]; try omega)

/-- C5 counterexample: on the termination path where `_initialize`
raises (inside the `try`, before the startup-hook dispatch), the run
terminates — the `except` logs and the `finally` still runs the cleanup
hook — but `pibooth_startup` is invoked zero times, not once. -/
theorem mainLoopStartupSkipped :
    mainLoopTrace ⟨true, false, false, []⟩ =
      [LoopAct.initCall, LoopAct.crashLog, LoopAct.cleanupHook, LoopAct.quitGame] ∧
    terminates ⟨true, false, false, []⟩ ∧
    (mainLoopTrace ⟨true, false, false, []⟩).count LoopAct.startupHook = 0 :=
  ⟨by decide, Or.inl rfl, by decide⟩

/-- C5 (amended): `pibooth_cleanup` is dispatched exactly once, after
everything else in the run, on every path (the `finally` clause); and
on every run where the pre-loop `_initialize` call does not raise,
`pibooth_startup` is dispatched exactly once, before every loop action
(when `_initialize` raises inside the `try`, the startup hook is
skipped while the cleanup hook still runs). -/
theorem mainLoopLifecycleHooks (env : LoopEnv) :
    (∃ l, mainLoopTrace env = l ++ [LoopAct.cleanupHook, LoopAct.quitGame] ∧
      LoopAct.cleanupHook ∉ l) ∧
    (env.initRaises = false →
      ∃ l, mainLoopTrace env = LoopAct.initCall :: LoopAct.startupHook :: l ∧
        LoopAct.startupHook ∉ l) := by
  obtain ⟨ir, sr, ssr, ts⟩ := env
  constructor
  · unfold mainLoopTrace
    refine ⟨_, rfl, ?_⟩
    cases ir <;> cases sr <;> cases ssr <;>
      simp [List.mem_append, runLoopNoCleanup ts]
  · intro hir
    simp only at hir
    subst hir
    refine ⟨(if sr = true then [LoopAct.crashLog]
        else LoopAct.setStateWait ::
          (if ssr = true then [LoopAct.crashLog]
           else (runLoop none ts).1 ++
             (if (runLoop none ts).2 = true then [LoopAct.crashLog] else []))) ++
        [LoopAct.cleanupHook, LoopAct.quitGame], ?_, ?_⟩
    · unfold mainLoopTrace
      simp
    · cases sr <;> cases ssr <;>
        simp [List.mem_append, runLoopNoStartup ts]

/-- A terminating environment: one tick whose batch holds a `QUIT`
event, no raising call anywhere. -/
def quitTickEnv : LoopEnv :=
  { initRaises := false, startupRaises := false, setStateRaises := false,
    ticks := [{ events := [{ type := QUIT }], processRaises := false }] }

/-- C5 witness: on the quit-terminated run, the cleanup hook closes the
trace and the startup hook follows `_initialize` immediately, each
exactly once. -/
theorem mainLoopLifecycleHooksWitness :
    (∃ l, mainLoopTrace quitTickEnv = l ++ [LoopAct.cleanupHook, LoopAct.quitGame] ∧
      LoopAct.cleanupHook ∉ l) ∧
    (∃ l, mainLoopTrace quitTickEnv = LoopAct.initCall :: LoopAct.startupHook :: l ∧
      LoopAct.startupHook ∉ l) :=
  ⟨(mainLoopLifecycleHooks quitTickEnv).1, (mainLoopLifecycleHooks quitTickEnv).2 rfl⟩

/-- C7: the settings-menu gesture is disabled — `find_settings_event`
returns `None` on every batch, so the settings-menu branch of
`main_loop` is never entered, and on a live loop (no raising pre-loop
call) every consumed tick that is not a quit tick reaches
`machine.process(events)`. -/
theorem settingsGestureDisabled (l : List Event) (env : LoopEnv)
    (h1 : env.initRaises = false) (h2 : env.startupRaises = false)
    (h3 : env.setStateRaises = false) :
    (findSettingsEvent l).1 = none ∧
    LoopAct.menuShow ∉ mainLoopTrace env ∧
    (mainLoopTrace env).count LoopAct.processTick = nonQuitConsumed env.ticks := by
  obtain ⟨ir, sr, ssr, ts⟩ := env
  simp only at h1 h2 h3
  subst h1; subst h2; subst h3
  refine ⟨rfl, ?_, ?_⟩
  · unfold mainLoopTrace
    simp [List.mem_append, runLoopNoMenuShow ts]
  · unfold mainLoopTrace
    cases hcr : (runLoop none ts).2 <;>
      simp [List.count_append, hcr, runLoopProcessCount ts]

/-- C7 witness: on the quit-terminated run, no menu is shown and the
single quit tick never reaches `machine.process`. -/
theorem settingsGestureDisabledWitness :
    (findSettingsEvent []).1 = none ∧
    LoopAct.menuShow ∉ mainLoopTrace quitTickEnv ∧
    (mainLoopTrace quitTickEnv).count LoopAct.processTick = nonQuitConsumed quitTickEnv.ticks :=
  settingsGestureDisabled [] quitTickEnv rfl rfl rfl

end Pibooth
